import Mathlib

/-!
Shallow embedding of the property-management backend (`src/app.py`):
the `Room` and `Booking` data model backed by a SQLite store, and the
route handlers `create_room`, `update_room`, `create_booking` and
`get_all_bookings`.  Handlers are modelled as pure functions from the
request payload and the database state to a response together with the
successor state.  JSON payloads are modelled as records of `Option`
fields (a `none` field is an absent key).  Unhandled database
`IntegrityError` exceptions raised by `db.session.commit()` (unique or
not-null constraint violations, surfacing as HTTP 500) are modelled as
an explicit `integrityError` response leaving the state unchanged.
-/

namespace PMS

/-- A calendar date, as Python's `datetime.date`. -/
structure Date where
  year : Nat
  month : Nat
  day : Nat
deriving DecidableEq, Repr

/-- Gregorian leap-year rule, as Python's `calendar.isleap`. -/
def isLeap (y : Nat) : Bool := y % 4 == 0 && (y % 100 != 0 || y % 400 == 0)

/-- Length of a month, as used by `datetime.date`'s validity check. -/
def daysInMonth (y m : Nat) : Nat :=
  if m == 2 then (if isLeap y then 29 else 28)
  else if m == 4 || m == 6 || m == 9 || m == 11 then 30
  else 31

/-- Numeric value of an ASCII digit. -/
def digitVal (c : Char) : Nat := c.toNat - 48

/-- `datetime.date(y, m, d)` construction: year within `MINYEAR..MAXYEAR`,
day within the month (month range and `1 ≤ day` are guaranteed by the
`strptime` patterns below). -/
def mkDate (y m d : Nat) : Option Date :=
  if 1 ≤ y ∧ y ≤ 9999 ∧ d ≤ daysInMonth y m then some ⟨y, m, d⟩ else none

/-- CPython `_strptime` pattern for `%m`, two characters: `1[0-2]|0[1-9]`. -/
def month2 (c1 c2 : Char) : Option Nat :=
  if c1 = '1' ∧ ('0' ≤ c2 ∧ c2 ≤ '2') then some (10 + digitVal c2)
  else if c1 = '0' ∧ ('1' ≤ c2 ∧ c2 ≤ '9') then some (digitVal c2)
  else none

/-- CPython `_strptime` pattern for `%m`, one character: `[1-9]`. -/
def month1 (c : Char) : Option Nat :=
  if '1' ≤ c ∧ c ≤ '9' then some (digitVal c) else none

/-- CPython `_strptime` pattern for `%d`, two characters:
`3[01]|[12][0-9]|0[1-9]`. -/
def day2 (c1 c2 : Char) : Option Nat :=
  if c1 = '3' ∧ (c2 = '0' ∨ c2 = '1') then some (30 + digitVal c2)
  else if (c1 = '1' ∨ c1 = '2') ∧ ('0' ≤ c2 ∧ c2 ≤ '9') then
    some (10 * digitVal c1 + digitVal c2)
  else if c1 = '0' ∧ ('1' ≤ c2 ∧ c2 ≤ '9') then some (digitVal c2)
  else none

/-- CPython `_strptime` pattern for `%d`, one character: `[1-9]`. -/
def day1 (c : Char) : Option Nat :=
  if '1' ≤ c ∧ c ≤ '9' then some (digitVal c) else none

/-- CPython `_strptime` pattern for `%Y`: exactly four digits. -/
def year4 (a b c d : Char) : Option Nat :=
  if a.isDigit ∧ b.isDigit ∧ c.isDigit ∧ d.isDigit then
    some (1000 * digitVal a + 100 * digitVal b + 10 * digitVal c + digitVal d)
  else none

/-- Combine the matched fields into a date, as
`datetime.strptime` does after the regex match. -/
def buildDate (y? m? d? : Option Nat) : Option Date :=
  match y?, m?, d? with
  | some y, some m, some d => mkDate y m d
  | _, _, _ => none

/-- `datetime.strptime(s, '%Y-%m-%d').date()` from `create_booking`:
the CPython `_strptime` regex is `(\d{4})-(1[0-2]|0[1-9]|[1-9])-(3[01]|[12][0-9]|0[1-9]|[1-9])`
anchored at the start, followed by the "unconverted data remains" check,
then `datetime` construction (calendar validity).  Note `%m` and `%d`
accept one- or two-digit fields, so e.g. `2024-6-1` parses. -/
def parseDate (s : String) : Option Date :=
  match s.data with
  | [a, b, c, d, '-', m1, '-', e1] =>
      buildDate (year4 a b c d) (month1 m1) (day1 e1)
  | [a, b, c, d, '-', m1, '-', e1, e2] =>
      buildDate (year4 a b c d) (month1 m1) (day2 e1 e2)
  | [a, b, c, d, '-', m1, m2, '-', e1] =>
      buildDate (year4 a b c d) (month2 m1 m2) (day1 e1)
  | [a, b, c, d, '-', m1, m2, '-', e1, e2] =>
      buildDate (year4 a b c d) (month2 m1 m2) (day2 e1 e2)
  | _ => none

/-- Zero-pad a numeral to two digits (`%m`, `%d` in `strftime`). -/
def pad2 (n : Nat) : String := if n < 10 then "0" ++ toString n else toString n

/-- `date.strftime` with format `%Y-%m-%d` from `get_all_bookings`: `%Y` prints the
year without padding (glibc behaviour; every date parsed by
`parseDate` has a four-digit year anyway), `%m` and `%d` zero-padded. -/
def formatDate (d : Date) : String :=
  toString d.year ++ "-" ++ pad2 d.month ++ "-" ++ pad2 d.day

/-- Chronological order on dates (SQLAlchemy stores dates as ISO text in
SQLite, so `ORDER BY check_in_date` is this lexicographic order). -/
def dateLe (a b : Date) : Prop :=
  a.year < b.year ∨
    (a.year = b.year ∧
      (a.month < b.month ∨ (a.month = b.month ∧ a.day ≤ b.day)))

instance : DecidableRel dateLe := fun a b => by
  unfold dateLe; infer_instance

/-- Strict chronological order on dates. -/
def dateLt (a b : Date) : Prop := dateLe a b ∧ ¬ dateLe b a

instance (a b : Date) : Decidable (dateLt a b) := by
  unfold dateLt; infer_instance

/-- `Room` row: integer primary key, unique non-null `name`,
non-null `status` defaulting to `Available`. -/
structure Room where
  id : Nat
  name : String
  status : String
deriving DecidableEq, Repr

/-- `Booking` row.  `total_amount` and `amount_paid` are `Float` columns,
but `create_booking` only ever leaves them at their defaults
(`NULL` and `0.0`), so they are modelled as optional integers. -/
structure Booking where
  id : Nat
  guest_name : String
  check_in_date : Date
  check_out_date : Date
  num_adults : Int
  num_children : Int
  phone_number : Option String
  email : Option String
  booking_status : String
  payment_status : String
  total_amount : Option Int
  amount_paid : Option Int
  payment_method : Option String
  room_id : Nat
deriving DecidableEq, Repr

/-- The persistent store: the `room` and `booking` tables. -/
structure DB where
  rooms : List Room
  bookings : List Booking
deriving DecidableEq, Repr

/-- SQLite rowid assignment for an insert: one more than the largest
existing id. -/
def nextId (ids : List Nat) : Nat := ids.foldr max 0 + 1

/-- `Room.query.get(i)` / `get_or_404(i)`: lookup by primary key. -/
def findRoom (s : DB) (i : Nat) : Option Room :=
  s.rooms.find? (fun r => r.id = i)

/-- JSON body of `POST /api/rooms`; a `none` field is an absent key. -/
structure RoomCreateData where
  name : Option String
  status : Option String
deriving DecidableEq, Repr

/-- Response of `create_room`. -/
inductive CreateRoomResult where
  /-- 201 with the created room. -/
  | success (room : Room)
  /-- 400 with the given message. -/
  | badRequest (msg : String)
  /-- Unhandled `IntegrityError` raised by `db.session.commit()` (500). -/
  | integrityError
deriving DecidableEq, Repr

/-- The row built by `Room(name=..., status=data.get('status', 'Available'))`
with the id the insert will assign. -/
def newRoom (s : DB) (n : String) (st : Option String) : Room :=
  { id := nextId (s.rooms.map (·.id)), name := n,
    status := st.getD "Available" }

/-- `create_room` (`POST /api/rooms`).  The argument is `None` for a JSON
`null` body; Python's `not data` is also true for an empty object, which
the model folds into the absent-`name` branch since the response and the
state are the same.  The `name` column is unique, so committing a
duplicate raises `IntegrityError`; the empty string is a value like any
other and is accepted. -/
def create_room (data : Option RoomCreateData) (s : DB) :
    CreateRoomResult × DB :=
  match data with
  | none => (.badRequest "Room name is required", s)
  | some d =>
    match d.name with
    | none => (.badRequest "Room name is required", s)
    | some n =>
      let room := newRoom s n d.status
      if s.rooms.any (fun r => r.name = n) then (.integrityError, s)
      else (.success room, { s with rooms := s.rooms ++ [room] })

/-- JSON body of `PUT /api/rooms/<id>`; `extra` records whether the
object carries keys other than `name`/`status` (they make the dict
truthy but are otherwise ignored by the handler). -/
structure RoomUpdateData where
  name : Option String
  status : Option String
  extra : Bool
deriving DecidableEq, Repr

/-- Python truthiness of the JSON object passed to `update_room`:
a dict is falsy iff it is empty. -/
def RoomUpdateData.truthy (d : RoomUpdateData) : Bool :=
  d.name.isSome || d.status.isSome || d.extra

/-- Response of `update_room`. -/
inductive UpdateRoomResult where
  /-- 200 with the updated room. -/
  | success (room : Room)
  /-- 404 from `get_or_404`. -/
  | notFound
  /-- 400 with the given message. -/
  | badRequest (msg : String)
  /-- Unhandled `IntegrityError` raised by `db.session.commit()` (500). -/
  | integrityError
deriving DecidableEq, Repr

/-- The room after the two `data.get(..., current value)` assignments. -/
def patchedRoom (room : Room) (d : RoomUpdateData) : Room :=
  { id := room.id, name := d.name.getD room.name,
    status := d.status.getD room.status }

/-- `update_room` (`PUT /api/rooms/<id>`): `get_or_404` first, then the
truthiness check on the body, then a partial update (`data.get` falls
back to the current value) committed to the store.  Renaming to a name
held by a different room violates the unique constraint at commit. -/
def update_room (room_id : Nat) (data : Option RoomUpdateData) (s : DB) :
    UpdateRoomResult × DB :=
  match findRoom s room_id with
  | none => (.notFound, s)
  | some room =>
    match data with
    | none => (.badRequest "No input data provided", s)
    | some d =>
      if ¬ d.truthy then (.badRequest "No input data provided", s)
      else
        let room' := patchedRoom room d
        if s.rooms.any (fun r => r.id ≠ room.id ∧ r.name = room'.name) then
          (.integrityError, s)
        else
          (.success room',
           { s with rooms := s.rooms.map (fun r => if r.id = room.id then room' else r) })

/-- JSON body of `POST /api/bookings`; a `none` field is an absent key.
The handler indexes `data` directly, so the model assumes the body is a
JSON object (a `null` body makes the handler raise before any check). -/
structure BookingCreateData where
  guest_name : Option String
  check_in_date : Option String
  check_out_date : Option String
  room_id : Option Nat
  num_adults : Option Int
  num_children : Option Int
  phone_number : Option String
  email : Option String
deriving DecidableEq, Repr

/-- Response of `create_booking`. -/
inductive CreateBookingResult where
  /-- 201 with the new booking's id. -/
  | success (booking_id : Nat)
  /-- 400 with the given message (missing fields or bad date format). -/
  | badRequest (msg : String)
  /-- 404 with the given message (unknown room). -/
  | notFound (msg : String)
deriving DecidableEq, Repr

/-- The row built by the `Booking(...)` constructor call in
`create_booking`, with the id the insert will assign: explicit
arguments, `data.get` defaults for the party sizes and contacts, column
defaults for status, payment and amounts. -/
def builtBooking (data : BookingCreateData) (s : DB) (g : String)
    (din dout : Date) (rid : Nat) : Booking :=
  { id := nextId (s.bookings.map (·.id)),
    guest_name := g,
    check_in_date := din,
    check_out_date := dout,
    num_adults := data.num_adults.getD 1,
    num_children := data.num_children.getD 0,
    phone_number := data.phone_number,
    email := data.email,
    booking_status := "Confirmed",
    payment_status := "Unpaid",
    total_amount := none,
    amount_paid := some 0,
    payment_method := none,
    room_id := rid }

/-- `create_booking` (`POST /api/bookings`): required-field check, date
parsing, room-existence lookup, then unconditional construction and
commit.  The source contains no availability/overlap check (its comment
defers it: "We'll add that later"), no `check_in < check_out` check and
no sign check on `num_adults`/`num_children`.  Column defaults fill
`booking_status`, `payment_status` and `amount_paid`. -/
def create_booking (data : BookingCreateData) (s : DB) :
    CreateBookingResult × DB :=
  match data.guest_name, data.check_in_date, data.check_out_date, data.room_id with
  | some g, some ci, some co, some rid =>
    match parseDate ci, parseDate co with
    | some din, some dout =>
      match findRoom s rid with
      | none => (.notFound "Room not found with the provided ID", s)
      | some _ =>
        let b := builtBooking data s g din dout rid
        (.success b.id, { s with bookings := s.bookings ++ [b] })
    | _, _ => (.badRequest "Invalid date format. Please use YYYY-MM-DD.", s)
  | _, _, _, _ => (.badRequest "Missing required fields", s)

/-- One entry of the `GET /api/bookings` response. -/
structure BookingView where
  id : Nat
  guest_name : String
  check_in_date : String
  check_out_date : String
  room_id : Nat
  room_name : String
deriving DecidableEq, Repr, Inhabited

/-- `ORDER BY Booking.check_in_date` comparison. -/
def bookingLe (a b : Booking) : Prop := dateLe a.check_in_date b.check_in_date

instance : DecidableRel bookingLe := fun a b => by
  unfold bookingLe; infer_instance

/-- Serialize one booking row, following the back-reference
`booking.room` for the room name; `none` models the `AttributeError`
the loop raises when the referenced room row no longer exists. -/
def viewOf (s : DB) (b : Booking) : Option BookingView :=
  (findRoom s b.room_id).map fun r =>
    { id := b.id, guest_name := b.guest_name,
      check_in_date := formatDate b.check_in_date,
      check_out_date := formatDate b.check_out_date,
      room_id := b.room_id, room_name := r.name }

/-- The serialization loop of `get_all_bookings`. -/
def viewsOf (s : DB) : List Booking → Option (List BookingView)
  | [] => some []
  | b :: bs =>
    match viewOf s b, viewsOf s bs with
    | some v, some vs => some (v :: vs)
    | _, _ => none

/-- `get_all_bookings` (`GET /api/bookings`): scan ordered by
`check_in_date`, serialize each row joined with its room's name.  The
result is `none` when some booking references a deleted room (the
handler raises, HTTP 500).  Returned with the (unchanged) state, like
the other handlers. -/
def get_all_bookings (s : DB) : Option (List BookingView) × DB :=
  (viewsOf s (List.insertionSort bookingLe s.bookings), s)

/-- Serialization of one booking under referential integrity (the value
`viewOf` takes when the room lookup succeeds). -/
def viewD (s : DB) (b : Booking) : BookingView := (viewOf s b).getD default

/-- The spec's overlap predicate on half-open date intervals, stated in
its own words for comparison with the code: `[a,b)` and `[c,d)` overlap
iff `a < d` and `c < b`. -/
def specOverlap (a b c d : Date) : Prop := dateLt a d ∧ dateLt c b

instance (a b c d : Date) : Decidable (specOverlap a b c d) := by
  unfold specOverlap; infer_instance

instance : IsTotal Booking bookingLe :=
  ⟨fun a b => by unfold bookingLe dateLe; omega⟩

instance : IsTrans Booking bookingLe :=
  ⟨fun a b c hab hbc => by unfold bookingLe dateLe at hab hbc ⊢; omega⟩

/-! ### Concrete fixtures (the spec's concrete scenarios) -/

/-- The empty store. -/
def dbEmpty : DB := ⟨[], []⟩

/-- Scenario 1's room: `{name: "101"}` created on the empty store. -/
def room101 : Room := ⟨1, "101", "Available"⟩

/-- Store after creating room 101. -/
def s1 : DB := ⟨[room101], []⟩

/-- Scenario 1's booking request: Alice, 2024-06-01 to 2024-06-05,
room 1. -/
def aliceData : BookingCreateData :=
  { guest_name := some "Alice", check_in_date := some "2024-06-01",
    check_out_date := some "2024-06-05", room_id := some 1,
    num_adults := none, num_children := none,
    phone_number := none, email := none }

/-- Store after scenario 1's booking. -/
def s2 : DB := (create_booking aliceData s1).2

/-- Scenario 2's request: 2024-06-03 to 2024-06-04 on room 1, nested
inside scenario 1's interval. -/
def overlapData : BookingCreateData :=
  { aliceData with check_in_date := some "2024-06-03",
                   check_out_date := some "2024-06-04" }

/-- Scenario 5's request: reversed dates on room 1. -/
def reversedData : BookingCreateData :=
  { aliceData with check_in_date := some "2024-06-05",
                   check_out_date := some "2024-06-01" }

/-- Scenario 4's request: nonexistent room id 999. -/
def roomlessData : BookingCreateData :=
  { aliceData with room_id := some 999 }

/-- A request whose check-in string fails to parse (June has 30 days). -/
def badFormatData : BookingCreateData :=
  { aliceData with check_in_date := some "2024-06-31" }

/-- A request with the required `guest_name` key absent. -/
def missingGuestData : BookingCreateData :=
  { aliceData with guest_name := none }

/-- A request with the required `room_id` key absent. -/
def missingRoomData : BookingCreateData :=
  { aliceData with room_id := none }

/-- A request with non-padded date strings that `strptime` accepts. -/
def nonPaddedData : BookingCreateData :=
  { aliceData with check_in_date := some "2024-6-1" }

/-- A request supplying a negative party size. -/
def negAdultsData : BookingCreateData :=
  { aliceData with num_adults := some (-3) }

/-- A second room. -/
def room102 : Room := ⟨2, "102", "Available"⟩

/-- A stored booking on room 2 checking in 2024-07-01. -/
def bookingJuly : Booking :=
  { id := 1, guest_name := "Bob", check_in_date := ⟨2024, 7, 1⟩,
    check_out_date := ⟨2024, 7, 3⟩, num_adults := 1, num_children := 0,
    phone_number := none, email := none, booking_status := "Confirmed",
    payment_status := "Unpaid", total_amount := none, amount_paid := some 0,
    payment_method := none, room_id := 2 }

/-- A stored booking on room 1 checking in 2024-06-01, inserted after
`bookingJuly` although it checks in earlier. -/
def bookingJune : Booking :=
  { id := 2, guest_name := "Alice", check_in_date := ⟨2024, 6, 1⟩,
    check_out_date := ⟨2024, 6, 5⟩, num_adults := 1, num_children := 0,
    phone_number := none, email := none, booking_status := "Confirmed",
    payment_status := "Unpaid", total_amount := none, amount_paid := some 0,
    payment_method := none, room_id := 1 }

/-- Two rooms, two bookings stored in reverse check-in order. -/
def c9s : DB := ⟨[room101, room102], [bookingJuly, bookingJune]⟩

/-- A status-only partial update. -/
def updOcc : RoomUpdateData := ⟨none, some "Occupied", false⟩

/-- Two rooms, no bookings. -/
def c10s : DB := ⟨[room101, room102], []⟩

/-- The serialization loop succeeds on a list of bookings whose rooms
all resolve, producing the `viewD` of each row. -/
theorem viewsOf_eq_map (s : DB) (l : List Booking)
    (h : ∀ b ∈ l, (findRoom s b.room_id).isSome) :
    viewsOf s l = some (l.map (viewD s)) := by
  induction l with
  | nil => rfl
  | cons b bs ih =>
    have hb : (viewOf s b).isSome := by
      have := h b (List.mem_cons_self b bs)
      simpa [viewOf] using this
    obtain ⟨v, hv⟩ := Option.isSome_iff_exists.mp hb
    have hbs : viewsOf s bs = some (bs.map (viewD s)) :=
      ih fun x hx => h x (List.mem_cons_of_mem _ hx)
    simp [viewsOf, hv, hbs, viewD]

/-- C1: the spec requires booking creation to fail with
`RoomUnavailableError` when some existing Confirmed booking on the same
room has a half-open interval overlapping the requested one; the code
performs no availability check at all (its comment defers it).  On the
state holding scenario 1's Confirmed booking `[2024-06-01, 2024-06-05)`
on room 1, the nested request `[2024-06-03, 2024-06-04)` — which
overlaps under the spec's own predicate — succeeds with 201 and a
second booking is persisted. -/
theorem c1_overlap_booking_accepted :
    (∃ bk ∈ s2.bookings, bk.booking_status = "Confirmed" ∧ bk.room_id = 1 ∧
      specOverlap bk.check_in_date bk.check_out_date ⟨2024, 6, 3⟩ ⟨2024, 6, 4⟩) ∧
    (create_booking overlapData s2).1 = .success 2 ∧
    (create_booking overlapData s2).2.bookings.length = 2 := by
  decide

/-- C2: the spec requires creation with reversed dates to fail with
`InvalidDateRangeError`; the code never compares the two parsed dates.
Scenario 5's request (check-in 2024-06-05, check-out 2024-06-01 on
room 1) succeeds with 201 and the persisted booking violates
`check_in_date < check_out_date`. -/
theorem c2_reversed_dates_accepted :
    (create_booking reversedData s1).1 = .success 1 ∧
    (∃ bk ∈ (create_booking reversedData s1).2.bookings,
      bk.check_in_date = ⟨2024, 6, 5⟩ ∧ bk.check_out_date = ⟨2024, 6, 1⟩ ∧
      ¬ dateLt bk.check_in_date bk.check_out_date) := by
  decide

/-- C3 counterexample: the claim says `CreateRoom` fails with
`ValidationError` when the supplied name is empty, but the handler only
checks key presence: an empty-string name is accepted and a room named
`""` is persisted. -/
theorem c3_empty_name_accepted :
    create_room (some ⟨some "", none⟩) dbEmpty =
      (.success ⟨1, "", "Available"⟩, ⟨[⟨1, "", "Available"⟩], []⟩) := by
  decide

/-- C3 amended: `create_room` responds 400 ("Room name is required")
exactly when the `name` key is absent (or the body is null/empty); an
empty-string name passes.  With a fresh name the first creation
succeeds; repeating the same name makes the commit violate the unique
constraint (unhandled `IntegrityError`, HTTP 500, nothing persisted),
leaving exactly one room with that name. -/
theorem c3_room_name_uniqueness (data : Option RoomCreateData) (s : DB)
    (n : String) (st st2 : Option String) :
    (data.bind RoomCreateData.name = none →
      create_room data s = (.badRequest "Room name is required", s)) ∧
    (s.rooms.any (fun r => r.name = n) = false →
      create_room (some ⟨some n, st⟩) s =
        (.success (newRoom s n st), { s with rooms := s.rooms ++ [newRoom s n st] }) ∧
      create_room (some ⟨some n, st2⟩) { s with rooms := s.rooms ++ [newRoom s n st] } =
        (.integrityError, { s with rooms := s.rooms ++ [newRoom s n st] }) ∧
      (s.rooms ++ [newRoom s n st]).countP (fun r => r.name = n) = 1) := by
  constructor
  · intro h
    cases data with
    | none => rfl
    | some d =>
      cases hn : d.name with
      | none => simp [create_room, hn]
      | some m => simp [hn] at h
  · intro hany
    have hnew : (newRoom s n st).name = n := rfl
    refine ⟨?_, ?_, ?_⟩
    · simp [create_room, hany]
    · simp [create_room, List.any_append, hany, newRoom]
    · rw [List.countP_append]
      have h0 : s.rooms.countP (fun r => r.name = n) = 0 := by
        rw [List.countP_eq_zero]
        intro r hr
        have := List.any_eq_false.mp hany r hr
        simpa using this
      simp [h0, newRoom]

/-- C3 witness: the amended behaviour at concrete inputs — missing name
rejected on the empty store; creating room "101" succeeds; creating
"101" again hits the unique constraint. -/
theorem c3_room_name_uniqueness_witness :
    create_room none dbEmpty = (.badRequest "Room name is required", dbEmpty) ∧
    create_room (some ⟨some "101", none⟩) dbEmpty =
      (.success (newRoom dbEmpty "101" none),
       { dbEmpty with rooms := dbEmpty.rooms ++ [newRoom dbEmpty "101" none] }) ∧
    create_room (some ⟨some "101", none⟩)
        { dbEmpty with rooms := dbEmpty.rooms ++ [newRoom dbEmpty "101" none] } =
      (.integrityError,
       { dbEmpty with rooms := dbEmpty.rooms ++ [newRoom dbEmpty "101" none] }) :=
  have h := c3_room_name_uniqueness none dbEmpty "101" none none
  ⟨h.1 rfl, (h.2 (by decide)).1, (h.2 (by decide)).2.1⟩

/-- C4 counterexample: the claim says the error names the first missing
field (or the set of missing fields); the handler's message is the
fixed string "Missing required fields" — it is the same no matter which
field is missing, so it identifies neither. -/
theorem c4_error_is_generic :
    (create_booking missingGuestData s1).1 = .badRequest "Missing required fields" ∧
    (create_booking missingRoomData s1).1 = .badRequest "Missing required fields" := by
  decide

/-- C4 amended: when any of `guest_name`, `check_in_date`,
`check_out_date`, `room_id` is absent the request fails with the
generic 400 message "Missing required fields" (not naming the missing
fields) and the store is unchanged; when all four are present, the
required-field check passes. -/
theorem c4_missing_fields (data : BookingCreateData) (s : DB) :
    ((data.guest_name = none ∨ data.check_in_date = none ∨
      data.check_out_date = none ∨ data.room_id = none) →
      create_booking data s = (.badRequest "Missing required fields", s)) ∧
    (∀ g ci co rid, data.guest_name = some g → data.check_in_date = some ci →
      data.check_out_date = some co → data.room_id = some rid →
      (create_booking data s).1 ≠ .badRequest "Missing required fields") := by
  constructor
  · intro h
    cases hg : data.guest_name with
    | none => simp [create_booking, hg]
    | some g =>
      cases hci : data.check_in_date with
      | none => simp [create_booking, hg, hci]
      | some ci =>
        cases hco : data.check_out_date with
        | none => simp [create_booking, hg, hci, hco]
        | some co =>
          cases hrid : data.room_id with
          | none => simp [create_booking, hg, hci, hco, hrid]
          | some rid => simp_all
  · intro g ci co rid hg hci hco hrid
    unfold create_booking
    rw [hg, hci, hco, hrid]
    cases hpi : parseDate ci with
    | none => simp [hpi]
    | some din =>
      cases hpo : parseDate co with
      | none => simp [hpi, hpo]
      | some dout =>
        cases hr : findRoom s rid with
        | none => simp [hpi, hpo, hr]
        | some r => simp [hpi, hpo, hr]

/-- C4 witness: a request missing only `guest_name` gets the generic
message; scenario 1's complete request passes the check. -/
theorem c4_missing_fields_witness :
    create_booking missingGuestData s1 = (.badRequest "Missing required fields", s1) ∧
    (create_booking aliceData s1).1 ≠ .badRequest "Missing required fields" :=
  ⟨(c4_missing_fields missingGuestData s1).1 (Or.inl rfl),
   (c4_missing_fields aliceData s1).2 "Alice" "2024-06-01" "2024-06-05" 1
     rfl rfl rfl rfl⟩

/-- C5: with all required fields present, if either date string fails
to parse as `YYYY-MM-DD` the request fails with the 400 message
"Invalid date format. Please use YYYY-MM-DD." and the store is
unchanged — for every store, so the room-existence lookup is never
reached. -/
theorem c5_invalid_date_format (data : BookingCreateData) (s : DB)
    (g ci co : String) (rid : Nat)
    (hg : data.guest_name = some g) (hci : data.check_in_date = some ci)
    (hco : data.check_out_date = some co) (hrid : data.room_id = some rid)
    (hbad : parseDate ci = none ∨ parseDate co = none) :
    create_booking data s =
      (.badRequest "Invalid date format. Please use YYYY-MM-DD.", s) := by
  unfold create_booking
  rw [hg, hci, hco, hrid]
  rcases hbad with h | h
  · simp [h]
  · cases hpi : parseDate ci with
    | none => simp [hpi]
    | some din => simp [hpi, h]

/-- C5 witness: check-in "2024-06-31" does not parse (June has 30
days); the request fails on the empty store — whose room 1 does not
even exist — with the date-format error, not the room-not-found one. -/
theorem c5_invalid_date_format_witness :
    create_booking badFormatData dbEmpty =
      (.badRequest "Invalid date format. Please use YYYY-MM-DD.", dbEmpty) :=
  c5_invalid_date_format badFormatData dbEmpty "Alice" "2024-06-31"
    "2024-06-05" 1 rfl rfl rfl rfl (Or.inl (by decide))

/-- C6: with all required fields present and both dates parsing, an
unknown `room_id` fails with the 404 message "Room not found with the
provided ID" leaving the store unchanged; when the room exists the
request succeeds and the built booking is persisted. -/
theorem c6_room_existence (data : BookingCreateData) (s : DB)
    (g ci co : String) (rid : Nat) (din dout : Date)
    (hg : data.guest_name = some g) (hci : data.check_in_date = some ci)
    (hco : data.check_out_date = some co) (hrid : data.room_id = some rid)
    (hpi : parseDate ci = some din) (hpo : parseDate co = some dout) :
    (findRoom s rid = none →
      create_booking data s = (.notFound "Room not found with the provided ID", s)) ∧
    (∀ r, findRoom s rid = some r →
      create_booking data s =
        (.success (builtBooking data s g din dout rid).id,
         { s with bookings := s.bookings ++ [builtBooking data s g din dout rid] })) := by
  unfold create_booking
  rw [hg, hci, hco, hrid]
  constructor
  · intro h; simp [hpi, hpo, h]
  · intro r h; simp [hpi, hpo, h]

/-- C6 witness: scenario 4's request for room 999 is rejected with 404
on the one-room store; scenario 1's request for room 1 succeeds and is
persisted. -/
theorem c6_room_existence_witness :
    create_booking roomlessData s1 =
      (.notFound "Room not found with the provided ID", s1) ∧
    create_booking aliceData s1 =
      (.success (builtBooking aliceData s1 "Alice" ⟨2024, 6, 1⟩ ⟨2024, 6, 5⟩ 1).id,
       { s1 with bookings :=
          s1.bookings ++ [builtBooking aliceData s1 "Alice" ⟨2024, 6, 1⟩ ⟨2024, 6, 5⟩ 1] }) :=
  ⟨(c6_room_existence roomlessData s1 "Alice" "2024-06-01" "2024-06-05" 999
      ⟨2024, 6, 1⟩ ⟨2024, 6, 5⟩ rfl rfl rfl rfl (by decide) (by decide)).1 (by decide),
   (c6_room_existence aliceData s1 "Alice" "2024-06-01" "2024-06-05" 1
      ⟨2024, 6, 1⟩ ⟨2024, 6, 5⟩ rfl rfl rfl rfl (by decide) (by decide)).2
     room101 (by decide)⟩

/-- C7 counterexample: `strptime` accepts the non-padded string
"2024-6-1" (a valid input: dates well-ordered, no other booking), but
`ListBookings` formats the stored date back as "2024-06-01", so the
stored dates do not round-trip character-for-character for every valid
input. -/
theorem c7_non_padded_input_no_round_trip :
    nonPaddedData.check_in_date = some "2024-6-1" ∧
    parseDate "2024-6-1" = some ⟨2024, 6, 1⟩ ∧
    dateLt ⟨2024, 6, 1⟩ ⟨2024, 6, 5⟩ ∧
    s1.bookings = [] ∧
    (create_booking nonPaddedData s1).1 = .success 1 ∧
    (get_all_bookings (create_booking nonPaddedData s1).2).1 =
      some [⟨1, "Alice", "2024-06-01", "2024-06-05", 1, "101"⟩] ∧
    "2024-06-01" ≠ "2024-6-1" := by
  decide

/-- C7 amended: a successful creation stores exactly the parsed dates,
and the listing formats them back with `formatDate`; whenever the input
strings are the canonical zero-padded renderings of their parsed dates
(`formatDate din = ci`, `formatDate dout = co`), the round-trip is
exact, character for character. -/
theorem c7_round_trip_canonical (data : BookingCreateData) (s : DB)
    (g ci co : String) (rid : Nat) (din dout : Date) (r : Room)
    (hg : data.guest_name = some g) (hci : data.check_in_date = some ci)
    (hco : data.check_out_date = some co) (hrid : data.room_id = some rid)
    (hpi : parseDate ci = some din) (hpo : parseDate co = some dout)
    (hr : findRoom s rid = some r)
    (hfi : formatDate din = ci) (hfo : formatDate dout = co) :
    create_booking data s =
      (.success (builtBooking data s g din dout rid).id,
       { s with bookings := s.bookings ++ [builtBooking data s g din dout rid] }) ∧
    viewOf { s with bookings := s.bookings ++ [builtBooking data s g din dout rid] }
        (builtBooking data s g din dout rid) =
      some { id := (builtBooking data s g din dout rid).id, guest_name := g,
             check_in_date := ci, check_out_date := co,
             room_id := rid, room_name := r.name } := by
  constructor
  · unfold create_booking
    rw [hg, hci, hco, hrid]
    simp [hpi, hpo, hr]
  · unfold viewOf
    rw [show findRoom
        { s with bookings := s.bookings ++ [builtBooking data s g din dout rid] }
        (builtBooking data s g din dout rid).room_id = some r from hr]
    simp [builtBooking, hfi, hfo]

/-- C7 witness: scenario 1's canonical request round-trips exactly. -/
theorem c7_round_trip_canonical_witness :
    create_booking aliceData s1 =
      (.success (builtBooking aliceData s1 "Alice" ⟨2024, 6, 1⟩ ⟨2024, 6, 5⟩ 1).id,
       { s1 with bookings :=
          s1.bookings ++ [builtBooking aliceData s1 "Alice" ⟨2024, 6, 1⟩ ⟨2024, 6, 5⟩ 1] }) ∧
    viewOf { s1 with bookings :=
          s1.bookings ++ [builtBooking aliceData s1 "Alice" ⟨2024, 6, 1⟩ ⟨2024, 6, 5⟩ 1] }
        (builtBooking aliceData s1 "Alice" ⟨2024, 6, 1⟩ ⟨2024, 6, 5⟩ 1) =
      some { id := (builtBooking aliceData s1 "Alice" ⟨2024, 6, 1⟩ ⟨2024, 6, 5⟩ 1).id,
             guest_name := "Alice", check_in_date := "2024-06-01",
             check_out_date := "2024-06-05", room_id := 1,
             room_name := room101.name } :=
  c7_round_trip_canonical aliceData s1 "Alice" "2024-06-01" "2024-06-05" 1
    ⟨2024, 6, 1⟩ ⟨2024, 6, 5⟩ room101 rfl rfl rfl rfl
    (by decide) (by decide) (by decide) (by decide) (by decide)

/-- C8 counterexample: the claim says a negative supplied `num_adults`
fails with `ValidationError`; the handler performs no sign check and
persists the booking with `num_adults = -3`. -/
theorem c8_negative_adults_accepted :
    (create_booking negAdultsData s1).1 = .success 1 ∧
    (∃ bk ∈ (create_booking negAdultsData s1).2.bookings, bk.num_adults = -3) := by
  decide

/-- C8 amended: on a successful creation the omitted optional fields
take the defaults `num_adults = 1`, `num_children = 0`,
`booking_status = "Confirmed"`, `payment_status = "Unpaid"`,
`amount_paid = 0`; supplied `num_adults`/`num_children` values are
stored as given, negative ones included (no `ValidationError`). -/
theorem c8_defaults (data : BookingCreateData) (s : DB)
    (g ci co : String) (rid : Nat) (din dout : Date) (r : Room)
    (hg : data.guest_name = some g) (hci : data.check_in_date = some ci)
    (hco : data.check_out_date = some co) (hrid : data.room_id = some rid)
    (hpi : parseDate ci = some din) (hpo : parseDate co = some dout)
    (hr : findRoom s rid = some r) :
    (create_booking data s).1 = .success (builtBooking data s g din dout rid).id ∧
    builtBooking data s g din dout rid ∈ (create_booking data s).2.bookings ∧
    (data.num_adults = none → (builtBooking data s g din dout rid).num_adults = 1) ∧
    (data.num_children = none → (builtBooking data s g din dout rid).num_children = 0) ∧
    (builtBooking data s g din dout rid).booking_status = "Confirmed" ∧
    (builtBooking data s g din dout rid).payment_status = "Unpaid" ∧
    (builtBooking data s g din dout rid).amount_paid = some 0 ∧
    (∀ k : Int, data.num_adults = some k →
      (builtBooking data s g din dout rid).num_adults = k) ∧
    (∀ k : Int, data.num_children = some k →
      (builtBooking data s g din dout rid).num_children = k) := by
  have heq : create_booking data s =
      (.success (builtBooking data s g din dout rid).id,
       { s with bookings := s.bookings ++ [builtBooking data s g din dout rid] }) := by
    unfold create_booking
    rw [hg, hci, hco, hrid]
    simp [hpi, hpo, hr]
  refine ⟨by rw [heq], by rw [heq]; simp, ?_, ?_, rfl, rfl, rfl, ?_, ?_⟩
  · intro h; simp [builtBooking, h]
  · intro h; simp [builtBooking, h]
  · intro k h; simp [builtBooking, h]
  · intro k h; simp [builtBooking, h]

/-- C8 witness: scenario 1's request omits both party sizes; the
persisted booking carries all the defaults. -/
theorem c8_defaults_witness :
    (create_booking aliceData s1).1 = .success 1 ∧
    (builtBooking aliceData s1 "Alice" ⟨2024, 6, 1⟩ ⟨2024, 6, 5⟩ 1).num_adults = 1 ∧
    (builtBooking aliceData s1 "Alice" ⟨2024, 6, 1⟩ ⟨2024, 6, 5⟩ 1).num_children = 0 ∧
    (builtBooking aliceData s1 "Alice" ⟨2024, 6, 1⟩ ⟨2024, 6, 5⟩ 1).booking_status = "Confirmed" ∧
    (builtBooking aliceData s1 "Alice" ⟨2024, 6, 1⟩ ⟨2024, 6, 5⟩ 1).payment_status = "Unpaid" ∧
    (builtBooking aliceData s1 "Alice" ⟨2024, 6, 1⟩ ⟨2024, 6, 5⟩ 1).amount_paid = some 0 :=
  have h := c8_defaults aliceData s1 "Alice" "2024-06-01" "2024-06-05" 1
    ⟨2024, 6, 1⟩ ⟨2024, 6, 5⟩ room101 rfl rfl rfl rfl (by decide) (by decide) (by decide)
  ⟨h.1, h.2.2.1 rfl, h.2.2.2.1 rfl, h.2.2.2.2.1, h.2.2.2.2.2.1, h.2.2.2.2.2.2.1⟩

/-- C9: when every stored booking's room resolves, `get_all_bookings`
returns (leaving the store untouched) the serialization of a
permutation of all stored bookings that is sorted by `check_in_date`
ascending, and each entry carries its referenced room's name together
with the formatted dates of its booking. -/
theorem c9_list_bookings (s : DB)
    (h : ∀ b ∈ s.bookings, (findRoom s b.room_id).isSome) :
    get_all_bookings s =
      (some ((List.insertionSort bookingLe s.bookings).map (viewD s)), s) ∧
    (List.insertionSort bookingLe s.bookings).Perm s.bookings ∧
    List.Sorted bookingLe (List.insertionSort bookingLe s.bookings) ∧
    (∀ b ∈ s.bookings, ∀ r, findRoom s b.room_id = some r →
      (viewD s b).room_name = r.name ∧
      (viewD s b).check_in_date = formatDate b.check_in_date ∧
      (viewD s b).check_out_date = formatDate b.check_out_date ∧
      (viewD s b).id = b.id) := by
  refine ⟨?_, List.perm_insertionSort _ _, List.sorted_insertionSort _ _, ?_⟩
  · unfold get_all_bookings
    rw [viewsOf_eq_map]
    intro b hb
    exact h b ((List.perm_insertionSort bookingLe s.bookings).mem_iff.mp hb)
  · intro b _ r hr
    simp [viewD, viewOf, hr]

/-- C9 witness: on a store holding two bookings inserted in reverse
check-in order, the listing returns them sorted by check-in date, each
joined with its room's name, and the store is unchanged. -/
theorem c9_list_bookings_witness :
    get_all_bookings c9s =
      (some [⟨2, "Alice", "2024-06-01", "2024-06-05", 1, "101"⟩,
             ⟨1, "Bob", "2024-07-01", "2024-07-03", 2, "102"⟩], c9s) :=
  (c9_list_bookings c9s (by decide)).1

/-- C10: `update_room` on an unknown id responds 404 and leaves the
store unchanged; on an existing room (with a truthy body and no name
collision with a different room) it replaces exactly that room by its
patched version — each field absent from the request keeps its previous
value — and every other room is still stored unmodified. -/
theorem c10_partial_update (rid : Nat) (data : Option RoomUpdateData) (s : DB) :
    (findRoom s rid = none → update_room rid data s = (.notFound, s)) ∧
    (∀ room d, findRoom s rid = some room → data = some d → d.truthy = true →
      s.rooms.any (fun r => r.id ≠ room.id ∧ r.name = (patchedRoom room d).name) = false →
      update_room rid data s =
        (.success (patchedRoom room d),
         { s with rooms :=
            s.rooms.map (fun r => if r.id = room.id then patchedRoom room d else r) }) ∧
      (d.name = none → (patchedRoom room d).name = room.name) ∧
      (d.status = none → (patchedRoom room d).status = room.status) ∧
      (∀ r ∈ s.rooms, r.id ≠ room.id → r ∈ (update_room rid data s).2.rooms)) := by
  constructor
  · intro h
    unfold update_room
    simp [h]
  · intro room d hfind hdata htruthy hany
    subst hdata
    have heq : update_room rid (some d) s =
        (.success (patchedRoom room d),
         { s with rooms :=
            s.rooms.map (fun r => if r.id = room.id then patchedRoom room d else r) }) := by
      unfold update_room
      simp only [hfind, htruthy]
      rw [hany]
      simp
    refine ⟨heq, ?_, ?_, ?_⟩
    · intro h; simp [patchedRoom, h]
    · intro h; simp [patchedRoom, h]
    · intro r hr hne
      have hmem : (if r.id = room.id then patchedRoom room d else r) ∈
          s.rooms.map (fun r => if r.id = room.id then patchedRoom room d else r) :=
        List.mem_map_of_mem _ hr
      rw [if_neg hne] at hmem
      rw [heq]
      exact hmem

/-- C10 witness: updating the unknown id 99 responds 404; a status-only
update of room 1 keeps its name, stores the patched row, and room 2 is
still stored untouched. -/
theorem c10_partial_update_witness :
    update_room 99 (some updOcc) c10s = (.notFound, c10s) ∧
    update_room 1 (some updOcc) c10s =
      (.success (patchedRoom room101 updOcc),
       { c10s with rooms :=
          c10s.rooms.map (fun r => if r.id = room101.id then patchedRoom room101 updOcc else r) }) ∧
    (patchedRoom room101 updOcc).name = room101.name ∧
    room102 ∈ (update_room 1 (some updOcc) c10s).2.rooms :=
  have h1 := (c10_partial_update 99 (some updOcc) c10s).1 (by decide)
  have h2 := (c10_partial_update 1 (some updOcc) c10s).2 room101 updOcc
    (by decide) rfl (by decide) (by decide)
  ⟨h1, h2.1, h2.2.1 rfl, h2.2.2.2 room102 (by decide) (by decide)⟩

end PMS
